import Mathlib

/-!
Shallow embedding of the libgreat LPC43xx GPIO driver
(`firmware/include/drivers/gpio.h` / the accompanying implementation file).

Machine integers are modelled as `Nat` with explicit truncation modulo
`2 ^ 32` where the C code operates on `uint32_t` values.  The hardware
register file of one GPIO port is modelled as an explicit `PortState`
record; every driver operation is a state transformer that also reports
the number of hardware register writes it performed, so that "performs
zero hardware writes" becomes a provable statement.  The pinmux facade
additionally reports the list of calls made to the external SCU
collaborator `platform_scu_configure_pin_gpio`.
-/

namespace Libgreat

/-- `EINVAL` from `errno.h`, the error value the driver returns. -/
def EINVAL : Nat := 22

/-- Platform constant `GPIO_MAX_PORTS` (the topology tables in the source
are declared `[GPIO_MAX_PORTS][GPIO_MAX_PORT_BITS]` with six rows). -/
def GPIO_MAX_PORTS : Nat := 6

/-- Platform constant `GPIO_MAX_PORT_BITS` (twenty entries per table row). -/
def GPIO_MAX_PORT_BITS : Nat := 20

/-- Truncation to a 32-bit machine word. -/
def trunc32 (x : Nat) : Nat := x % 2 ^ 32

/-- 32-bit bitwise complement (`~x` on a `uint32_t`). -/
def compl32 (x : Nat) : Nat := trunc32 x ^^^ (2 ^ 32 - 1)

/-- The C value type `gpio_pin_t`: a logical (port, pin) identity. -/
structure gpio_pin_t where
  port : Nat
  pin : Nat
deriving DecidableEq, Repr

/-- One recorded call to the external pinmux collaborator
`platform_scu_configure_pin_gpio(group, pin, function, resistor_mode)`. -/
structure ScuCall where
  group : Nat
  pin : Nat
  function : Nat
  resistor_mode : Nat
deriving DecidableEq, Repr

/-- Hardware state of one GPIO port's register block: the direction
register, the write-mask register and the pin-value register.  The
`set`/`clear`/`toggle`/`masked_pins` registers are write strobes whose
effect on `pins` is modelled inside each operation (per the register
comments in the source and the hardware description in the spec). -/
structure PortState where
  direction : Nat
  maskReg : Nat
  pins : Nat
deriving DecidableEq, Repr

/-- `validate_port` from the source: rejects `port > GPIO_MAX_PORTS`
(note: `>` in the source, not `>=`). Returns 0 on success, EINVAL on
failure. -/
def validate_port (port : Nat) : Nat :=
  if port > GPIO_MAX_PORTS then EINVAL else 0

/-- `validate_port_and_pin` from the source.  Faithfully reproduces the
source's second test, which compares `pin.port` (not `pin.pin`) against
`GPIO_MAX_PORT_BITS`. -/
def validate_port_and_pin (pin : gpio_pin_t) : Nat :=
  if validate_port pin.port ≠ 0 then EINVAL
  else if pin.port > GPIO_MAX_PORT_BITS then EINVAL
  else 0

/-- The `gpio_to_pin_group` topology table from the source.  The C array
holds `uint8_t`; the `-1` sentinel entries are the value 255. -/
def gpio_to_pin_group : List (List Nat) :=
  [ [0, 0, 1, 1, 1, 6, 3, 2, 1, 1, 1, 1, 1, 1, 2, 1, 255, 255, 255, 255],
    [1, 1, 1, 1, 1, 1, 1, 1, 1, 1, 2, 2, 2, 2, 3, 3, 255, 255, 255, 255],
    [4, 255, 4, 4, 4, 4, 4, 5, 255, 5, 5, 5, 5, 5, 5, 5, 255, 255, 255, 255],
    [6, 6, 6, 6, 6, 6, 6, 255, 7, 7, 7, 255, 255, 255, 255, 7, 255, 255, 255, 255],
    [255, 255, 255, 255, 255, 255, 255, 255, 255, 255, 255, 9, 255, 255, 255, 255, 255, 255, 255, 255],
    [2, 2, 2, 2, 2, 2, 2, 2, 3, 3, 3, 255, 4, 4, 4, 6, 6, 255, 9, 255] ]

/-- The `gpio_to_pin_number` topology table from the source (255 = `-1`). -/
def gpio_to_pin_number : List (List Nat) :=
  [ [0, 1, 15, 16, 0, 6, 6, 7, 1, 2, 3, 4, 17, 18, 10, 20, 255, 255, 255, 255],
    [7, 8, 9, 10, 11, 12, 13, 14, 5, 6, 9, 11, 12, 13, 4, 5, 255, 255, 255, 255],
    [0, 255, 2, 3, 4, 5, 6, 7, 255, 0, 1, 2, 3, 4, 5, 6, 255, 255, 255, 255],
    [1, 2, 3, 4, 5, 9, 10, 255, 0, 1, 2, 255, 255, 255, 255, 7, 255, 255, 255, 255],
    [255, 255, 255, 255, 255, 255, 255, 255, 255, 255, 255, 6, 255, 255, 255, 255, 255, 255, 255, 255],
    [0, 1, 2, 3, 4, 5, 6, 8, 1, 2, 7, 255, 8, 9, 10, 7, 8, 255, 5, 255] ]

/-- In-range table indexing `table[port][pin]`.  (A C access out of the
declared bounds is undefined behaviour; the default 255 here is only a
totalisation and no theorem below depends on out-of-range indices.) -/
def tableLookup (t : List (List Nat)) (port pin : Nat) : Nat :=
  (t.getD port []).getD pin 255

/-- `gpio_get_group_number`: SCU group for a GPIO bit, 255 (`-1` as
`uint8_t`) on validation failure. -/
def gpio_get_group_number (p : gpio_pin_t) : Nat :=
  if validate_port_and_pin p ≠ 0 then 255
  else tableLookup gpio_to_pin_group p.port p.pin

/-- `gpio_get_pin_number`: SCU pin number for a GPIO bit, 255 on
validation failure. -/
def gpio_get_pin_number (p : gpio_pin_t) : Nat :=
  if validate_port_and_pin p ≠ 0 then 255
  else tableLookup gpio_to_pin_number p.port p.pin

/-- `gpio_configure_pinmux_and_resistors` (the spec's `route_pin`).
Returns the C return value together with the list of calls made to the
external collaborator `platform_scu_configure_pin_gpio`. -/
def gpio_configure_pinmux_and_resistors (p : gpio_pin_t) (resistor_mode : Nat) :
    Nat × List ScuCall :=
  if validate_port_and_pin p ≠ 0 then (EINVAL, [])
  else
    let scu_group := gpio_get_group_number p
    let scu_pin := gpio_get_pin_number p
    if scu_group = 255 ∨ scu_pin = 255 then (EINVAL, [])
    else
      let scu_function := if p.port = 5 then 4 else 0
      (0, [⟨scu_group, scu_pin, scu_function, resistor_mode⟩])

/-- `gpio_set_port_direction`: plain read-modify-write of the direction
register.  Result: (return value, new port state, number of register
writes). -/
def gpio_set_port_direction (port mask output_mask : Nat) (s : PortState) :
    Nat × PortState × Nat :=
  let mask := trunc32 mask
  let output_mask := trunc32 output_mask
  if validate_port port ≠ 0 then (EINVAL, s, 0)
  else
    let to_apply := s.direction
    let to_apply := to_apply &&& compl32 mask
    let to_apply := to_apply ||| output_mask
    (0, { s with direction := to_apply }, 1)

/-- `gpio_get_port_direction`: loads the direction register; returns 0
outright on validation failure. -/
def gpio_get_port_direction (port : Nat) (s : PortState) :
    Nat × PortState × Nat :=
  if validate_port port ≠ 0 then (0, s, 0)
  else (s.direction, s, 0)

/-- `gpio_get_pin_direction`.  The source computes the port direction
word before validating, then extracts bit `pin.pin`. -/
def gpio_get_pin_direction (p : gpio_pin_t) (s : PortState) :
    Nat × PortState × Nat :=
  let pins := (gpio_get_port_direction p.port s).1
  if validate_port_and_pin p ≠ 0 then (0, s, 0)
  else ((pins >>> p.pin) &&& 1, s, 0)

/-- `gpio_set_pin_direction`: single-bit mask, delegates to
`gpio_set_port_direction`. -/
def gpio_set_pin_direction (p : gpio_pin_t) (is_output : Bool) (s : PortState) :
    Nat × PortState × Nat :=
  let mask := 1 <<< p.pin
  if validate_port_and_pin p ≠ 0 then (EINVAL, s, 0)
  else gpio_set_port_direction p.port mask (if is_output then mask else 0) s

/-- `gpio_set_port_value`: writes the mask register, then the masked-pins
register.  The hardware applies `value` only at the bits selected by the
mask register (masked-write semantics per the spec's hardware model).
Two register writes. -/
def gpio_set_port_value (port mask value : Nat) (s : PortState) :
    Nat × PortState × Nat :=
  let mask := trunc32 mask
  let value := trunc32 value
  if validate_port port ≠ 0 then (EINVAL, s, 0)
  else
    (0, { s with maskReg := mask,
                 pins := (s.pins &&& compl32 mask) ||| (value &&& mask) }, 2)

/-- `gpio_set_port_bits`: one write to the hardware `set` register, which
ORs the mask into the pin-value register. -/
def gpio_set_port_bits (port mask : Nat) (s : PortState) :
    Nat × PortState × Nat :=
  let mask := trunc32 mask
  if validate_port port ≠ 0 then (EINVAL, s, 0)
  else (0, { s with pins := s.pins ||| mask }, 1)

/-- `gpio_clear_port_bits`: one write to the hardware `clear` register,
which clears the mask's bits in the pin-value register. -/
def gpio_clear_port_bits (port mask : Nat) (s : PortState) :
    Nat × PortState × Nat :=
  let mask := trunc32 mask
  if validate_port port ≠ 0 then (EINVAL, s, 0)
  else (0, { s with pins := s.pins &&& compl32 mask }, 1)

/-- `gpio_toggle_port_bits`: one write to the hardware `toggle` register,
which XORs the mask into the pin-value register. -/
def gpio_toggle_port_bits (port mask : Nat) (s : PortState) :
    Nat × PortState × Nat :=
  let mask := trunc32 mask
  if validate_port port ≠ 0 then (EINVAL, s, 0)
  else (0, { s with pins := s.pins ^^^ mask }, 1)

/-- `gpio_get_port_value`: writes the mask register (one hardware write),
then reads back the masked-pins register.  On validation failure returns
`EINVAL` as its `uint32_t` data result. -/
def gpio_get_port_value (port mask : Nat) (s : PortState) :
    Nat × PortState × Nat :=
  let mask := trunc32 mask
  if validate_port port ≠ 0 then (EINVAL, s, 0)
  else (s.pins &&& mask, { s with maskReg := mask }, 1)

/-- `gpio_set_pin_value`: writes the per-pin word register; a nonzero
`uint8_t` value sets the pin's bit, zero clears it. -/
def gpio_set_pin_value (p : gpio_pin_t) (value : Nat) (s : PortState) :
    Nat × PortState × Nat :=
  let value := value % 2 ^ 8
  if validate_port_and_pin p ≠ 0 then (EINVAL, s, 0)
  else
    let pins' := if value ≠ 0 then s.pins ||| (1 <<< p.pin)
                 else s.pins &&& compl32 (1 <<< p.pin)
    (0, { s with pins := pins' }, 1)

/-- `gpio_set_pin`: validates, then delegates to `gpio_set_port_bits`
with a single-bit mask, discarding its return value. -/
def gpio_set_pin (p : gpio_pin_t) (s : PortState) : Nat × PortState × Nat :=
  if validate_port_and_pin p ≠ 0 then (EINVAL, s, 0)
  else
    let r := gpio_set_port_bits p.port (1 <<< p.pin) s
    (0, r.2.1, r.2.2)

/-- `gpio_clear_pin`: validates, then delegates to `gpio_clear_port_bits`
with a single-bit mask, discarding its return value. -/
def gpio_clear_pin (p : gpio_pin_t) (s : PortState) : Nat × PortState × Nat :=
  if validate_port_and_pin p ≠ 0 then (EINVAL, s, 0)
  else
    let r := gpio_clear_port_bits p.port (1 <<< p.pin) s
    (0, r.2.1, r.2.2)

/-- `gpio_toggle_pin`: validates, then delegates to
`gpio_toggle_port_bits` with a single-bit mask, discarding its return
value. -/
def gpio_toggle_pin (p : gpio_pin_t) (s : PortState) : Nat × PortState × Nat :=
  if validate_port_and_pin p ≠ 0 then (EINVAL, s, 0)
  else
    let r := gpio_toggle_port_bits p.port (1 <<< p.pin) s
    (0, r.2.1, r.2.2)

/-- `gpio_get_pin_value`: reads the per-pin word register (all-ones when
the pin's bit is high, zero otherwise) and normalizes it with `? 1 : 0`.
On validation failure the `uint8_t` function returns `EINVAL` (22). -/
def gpio_get_pin_value (p : gpio_pin_t) (s : PortState) :
    Nat × PortState × Nat :=
  if validate_port_and_pin p ≠ 0 then (EINVAL, s, 0)
  else ((if s.pins.testBit p.pin then 1 else 0), s, 0)

/-! ## Helper lemmas -/

/-- Validation accepts every port up to and including `GPIO_MAX_PORTS`. -/
lemma validate_port_eq_zero {port : Nat} (h : port ≤ GPIO_MAX_PORTS) :
    validate_port port = 0 := by
  unfold validate_port
  rw [if_neg (by omega)]

/-- Pin validation accepts every identity whose port is at most
`GPIO_MAX_PORTS` (the pin index is never checked by the source). -/
lemma validate_port_and_pin_eq_zero {p : gpio_pin_t}
    (h : p.port ≤ GPIO_MAX_PORTS) :
    validate_port_and_pin p = 0 := by
  unfold validate_port_and_pin
  rw [validate_port_eq_zero h]
  have hbits : ¬ p.port > GPIO_MAX_PORT_BITS := by
    unfold GPIO_MAX_PORTS at h
    unfold GPIO_MAX_PORT_BITS
    omega
  simp [hbits]

/-- Bit characterization of the 32-bit complement. -/
lemma compl32_testBit (m i : Nat) :
    (compl32 m).testBit i = (decide (i < 32) && ! m.testBit i) := by
  unfold compl32 trunc32
  rw [Nat.testBit_xor, Nat.testBit_mod_two_pow, Nat.testBit_two_pow_sub_one]
  by_cases h : i < 32 <;> simp [h]

/-! ## Claim theorems -/

/-- C1: the claim says every pin-level operation on a pin index ≥
`GPIO_MAX_PORT_BITS` returns `InvalidPin` and performs zero hardware
writes.  The code's `validate_port_and_pin` compares `pin.port` (not
`pin.pin`) against `GPIO_MAX_PORT_BITS`, so the out-of-range pin
(port 0, pin 20) passes validation: `gpio_set_pin_value` and
`gpio_toggle_pin` return 0 (success) and each performs one hardware
write. -/
theorem c1_pin_bound_unchecked :
    validate_port_and_pin ⟨0, 20⟩ = 0 ∧
    gpio_set_pin_value ⟨0, 20⟩ 1 ⟨0, 0, 0⟩ = (0, ⟨0, 0, 1048576⟩, 1) ∧
    gpio_toggle_pin ⟨0, 20⟩ ⟨0, 0, 0⟩ = (0, ⟨0, 0, 1048576⟩, 1) := by
  decide

/-- C2: the claim says every port-level operation on a port index ≥
`GPIO_MAX_PORTS` returns `InvalidPort` and performs zero hardware
writes.  The code's `validate_port` uses `>` rather than `>=`, so port
6 = `GPIO_MAX_PORTS` passes validation: `gpio_set_port_bits` and
`gpio_set_port_value` on port 6 return 0 (success) and perform hardware
writes. -/
theorem c2_port_bound_off_by_one :
    validate_port GPIO_MAX_PORTS = 0 ∧
    gpio_set_port_bits 6 1 ⟨0, 0, 0⟩ = (0, ⟨0, 0, 1⟩, 1) ∧
    gpio_set_port_value 6 1 1 ⟨0, 0, 0⟩ = (0, ⟨0, 1, 1⟩, 2) := by
  decide

/-- C3: for every valid logical pin whose topology-table entry is the
unrouted sentinel (in either table), `gpio_configure_pinmux_and_resistors`
returns `EINVAL` and makes no call to the pinmux collaborator. -/
theorem c3_route_pin_unrouted_rejected (port pinIdx r : Nat)
    (hp : port < GPIO_MAX_PORTS) (hb : pinIdx < GPIO_MAX_PORT_BITS)
    (hs : gpio_get_group_number ⟨port, pinIdx⟩ = 255 ∨
          gpio_get_pin_number ⟨port, pinIdx⟩ = 255) :
    gpio_configure_pinmux_and_resistors ⟨port, pinIdx⟩ r = (EINVAL, []) := by
  have hv : validate_port_and_pin ⟨port, pinIdx⟩ = 0 :=
    validate_port_and_pin_eq_zero (by show port ≤ GPIO_MAX_PORTS; omega)
  rcases hs with h | h <;>
    simp [gpio_configure_pinmux_and_resistors, hv, h]

/-- C3 witness: port 0, pin 16 is an unrouted table slot. -/
theorem c3_route_pin_unrouted_rejected_witness :
    gpio_configure_pinmux_and_resistors ⟨0, 16⟩ 0 = (EINVAL, []) :=
  c3_route_pin_unrouted_rejected 0 16 0 (by decide) (by decide) (by decide)

/-- C4: for all valid (port, pin) pairs, the group lookup and the
function-pin lookup agree on routedness: one resolves to the unrouted
sentinel 255 exactly when the other does. -/
theorem c4_topology_tables_consistent :
    ∀ port, port < GPIO_MAX_PORTS → ∀ pin, pin < GPIO_MAX_PORT_BITS →
      (gpio_get_group_number ⟨port, pin⟩ = 255 ↔
       gpio_get_pin_number ⟨port, pin⟩ = 255) := by
  decide

/-- C4 witness: instance at port 0, pin 2 (a routed slot). -/
theorem c4_topology_tables_consistent_witness :
    gpio_get_group_number ⟨0, 2⟩ = 255 ↔ gpio_get_pin_number ⟨0, 2⟩ = 255 :=
  c4_topology_tables_consistent 0 (by decide) 2 (by decide)

/-- C6: port 0, pin 2 resolves to group 1 and function-pin 15, and
`gpio_configure_pinmux_and_resistors` invokes the collaborator with
(group 1, pin 15, function 0, the given resistor mode). -/
theorem c6_route_pin_port0_pin2 (r : Nat) :
    gpio_get_group_number ⟨0, 2⟩ = 1 ∧ gpio_get_pin_number ⟨0, 2⟩ = 15 ∧
    gpio_configure_pinmux_and_resistors ⟨0, 2⟩ r = (0, [⟨1, 15, 0, r⟩]) := by
  refine ⟨by decide, by decide, ?_⟩
  rfl

/-- C5: on every valid, routed logical pin,
`gpio_configure_pinmux_and_resistors` succeeds and passes function-select
4 (the GPIO alternate function) to the collaborator exactly when the
pin's port is the designated special port 5, and function-select 0 (the
default) on every other port. -/
theorem c5_route_pin_function_select (port pinIdx r : Nat)
    (hp : port < GPIO_MAX_PORTS) (hb : pinIdx < GPIO_MAX_PORT_BITS)
    (hg : gpio_get_group_number ⟨port, pinIdx⟩ ≠ 255)
    (hn : gpio_get_pin_number ⟨port, pinIdx⟩ ≠ 255) :
    gpio_configure_pinmux_and_resistors ⟨port, pinIdx⟩ r =
      (0, [⟨gpio_get_group_number ⟨port, pinIdx⟩,
            gpio_get_pin_number ⟨port, pinIdx⟩,
            if port = 5 then 4 else 0, r⟩]) := by
  have hv : validate_port_and_pin ⟨port, pinIdx⟩ = 0 :=
    validate_port_and_pin_eq_zero (by show port ≤ GPIO_MAX_PORTS; omega)
  simp [gpio_configure_pinmux_and_resistors, hv, hg, hn]

/-- C5 witness: port 5, pin 0 is routed (group 2, pin 0) and receives
the alternate function-select 4. -/
theorem c5_route_pin_function_select_witness :
    gpio_configure_pinmux_and_resistors ⟨5, 0⟩ 3 = (0, [⟨2, 0, 4, 3⟩]) := by
  have h := c5_route_pin_function_select 5 0 3 (by decide) (by decide)
    (by decide) (by decide)
  exact h.trans (by decide)

/-- C7 counterexample: the claim says bits not selected by `mask` are
left unchanged for all 32-bit `mask` and `output_bits`.  With mask 0
(bit 0 not selected), output_bits 1 and direction word 0,
`gpio_set_port_direction` flips direction bit 0 from false to true. -/
theorem c7_set_port_direction_frame_counterexample :
    (gpio_set_port_direction 0 0 1 ⟨0, 0, 0⟩).2.1.direction.testBit 0 = true ∧
    (0 : Nat).testBit 0 = false ∧
    (PortState.mk 0 0 0).direction.testBit 0 = false := by
  decide

/-- C7 amended: for every valid port, `gpio_set_port_direction` performs
a read-modify-write computing `(direction &&& ~mask) ||| output_bits`,
and every direction bit that is neither selected by `mask` nor set in
`output_bits` is unchanged. -/
theorem c7_set_port_direction_rmw (port mask out : Nat) (s : PortState)
    (hv : validate_port port = 0) (hd : s.direction < 2 ^ 32)
    (hm : mask < 2 ^ 32) (ho : out < 2 ^ 32) :
    gpio_set_port_direction port mask out s =
      (0, { s with direction := (s.direction &&& compl32 mask) ||| out }, 1) ∧
    ∀ i, mask.testBit i = false → out.testBit i = false →
      (gpio_set_port_direction port mask out s).2.1.direction.testBit i =
        s.direction.testBit i := by
  have h1 : gpio_set_port_direction port mask out s =
      (0, { s with direction := (s.direction &&& compl32 mask) ||| out }, 1) := by
    unfold gpio_set_port_direction trunc32
    rw [Nat.mod_eq_of_lt hm, Nat.mod_eq_of_lt ho]
    simp [hv]
  refine ⟨h1, ?_⟩
  intro i him hio
  rw [h1]
  show ((s.direction &&& compl32 mask) ||| out).testBit i =
    s.direction.testBit i
  rw [Nat.testBit_or, Nat.testBit_and, compl32_testBit, him, hio]
  by_cases h : i < 32
  · simp [h]
  · have hz : s.direction.testBit i = false :=
      Nat.testBit_lt_two_pow
        (lt_of_lt_of_le hd (Nat.pow_le_pow_right (by norm_num) (by omega)))
    simp [h, hz]

/-- C7 witness: concrete read-modify-write at port 0, mask 1, output 1,
with direction bit 1 (unselected and not set in the output) preserved. -/
theorem c7_set_port_direction_rmw_witness :
    gpio_set_port_direction 0 1 1 ⟨2, 0, 0⟩ =
      (0, { PortState.mk 2 0 0 with
              direction := (((2 : Nat)) &&& compl32 1) ||| 1 }, 1) ∧
    (gpio_set_port_direction 0 1 1 ⟨2, 0, 0⟩).2.1.direction.testBit 1 =
      (PortState.mk 2 0 0).direction.testBit 1 :=
  ⟨(c7_set_port_direction_rmw 0 1 1 ⟨2, 0, 0⟩ (by decide) (by norm_num)
      (by norm_num) (by norm_num)).1,
   (c7_set_port_direction_rmw 0 1 1 ⟨2, 0, 0⟩ (by decide) (by norm_num)
      (by norm_num) (by norm_num)).2 1 (by decide) (by decide)⟩

/-- C8: for every valid port, any 32-bit mask and any port state,
applying `gpio_toggle_port_bits` twice with the same mask restores the
port's register state (in particular its pin-value register). -/
theorem c8_toggle_involution (port mask : Nat) (s : PortState)
    (hp : port < GPIO_MAX_PORTS) :
    (gpio_toggle_port_bits port mask
      (gpio_toggle_port_bits port mask s).2.1).2.1 = s := by
  have hv : validate_port port = 0 := validate_port_eq_zero (by omega)
  cases s with
  | mk d m p =>
    simp [gpio_toggle_port_bits, hv, Nat.xor_assoc, Nat.xor_self,
      Nat.xor_zero]

/-- C8 witness: concrete double toggle at port 0, mask 5. -/
theorem c8_toggle_involution_witness :
    (gpio_toggle_port_bits 0 5
      (gpio_toggle_port_bits 0 5 ⟨1, 2, 3⟩).2.1).2.1 = ⟨1, 2, 3⟩ :=
  c8_toggle_involution 0 5 ⟨1, 2, 3⟩ (by decide)

/-- C9 counterexample: the claim says `gpio_get_pin_value` returns
exactly 0 or 1 for every input pin identity.  On the pin (port 7, pin 0)
validation fails and the `uint8_t` function returns `EINVAL` = 22. -/
theorem c9_get_pin_value_counterexample :
    (gpio_get_pin_value ⟨7, 0⟩ ⟨0, 0, 0⟩).1 = EINVAL ∧
    ¬ ((gpio_get_pin_value ⟨7, 0⟩ ⟨0, 0, 0⟩).1 = 0 ∨
       (gpio_get_pin_value ⟨7, 0⟩ ⟨0, 0, 0⟩).1 = 1) := by
  decide

/-- C9 amended: for every pin identity accepted by validation,
`gpio_get_pin_value` loads the per-pin word register and normalizes it:
it returns 1 exactly when the pin's bit is set and 0 otherwise, hence
always 0 or 1; identities rejected by validation yield `EINVAL` (22)
instead. -/
theorem c9_get_pin_value_normalized (p : gpio_pin_t) (s : PortState)
    (hv : validate_port_and_pin p = 0) :
    (gpio_get_pin_value p s).1 = (if s.pins.testBit p.pin then 1 else 0) ∧
    ((gpio_get_pin_value p s).1 = 0 ∨ (gpio_get_pin_value p s).1 = 1) := by
  have h1 : (gpio_get_pin_value p s).1 =
      (if s.pins.testBit p.pin then 1 else 0) := by
    simp [gpio_get_pin_value, hv]
  refine ⟨h1, ?_⟩
  rw [h1]
  by_cases h : s.pins.testBit p.pin <;> simp [h]

/-- C9 amended witness: pin (0,0) with pin-value word 1 reads as 1. -/
theorem c9_get_pin_value_normalized_witness :
    (gpio_get_pin_value ⟨0, 0⟩ ⟨0, 0, 1⟩).1 =
      (if (PortState.mk 0 0 1).pins.testBit 0 then 1 else 0) ∧
    ((gpio_get_pin_value ⟨0, 0⟩ ⟨0, 0, 1⟩).1 = 0 ∨
     (gpio_get_pin_value ⟨0, 0⟩ ⟨0, 0, 1⟩).1 = 1) :=
  c9_get_pin_value_normalized ⟨0, 0⟩ ⟨0, 0, 1⟩ (by decide)

/-- C10: when port validation fails, `gpio_get_port_value` returns
`EINVAL` (22) as its 32-bit data result and `gpio_get_port_direction`
returns 0, each with the state untouched and zero hardware writes; and
each word is indistinguishable from a legitimate read on a valid port
(port 0 with pin word 22 under a full mask also reads 22; port 0 with
direction word 0 also reads 0). -/
theorem c10_read_errors_folded (port m : Nat) (s : PortState)
    (hv : validate_port port ≠ 0) :
    gpio_get_port_value port m s = (EINVAL, s, 0) ∧
    gpio_get_port_direction port s = (0, s, 0) ∧
    (validate_port 0 = 0 ∧
      (gpio_get_port_value 0 (2 ^ 32 - 1) ⟨0, 0, 22⟩).1 = EINVAL ∧
      (gpio_get_port_direction 0 ⟨0, 0, 0⟩).1 = 0) := by
  refine ⟨by simp [gpio_get_port_value, hv],
          by simp [gpio_get_port_direction, hv],
          by decide, by decide, by decide⟩

/-- C10 witness: instance at port 7. -/
theorem c10_read_errors_folded_witness :
    gpio_get_port_value 7 0 ⟨0, 0, 0⟩ = (EINVAL, ⟨0, 0, 0⟩, 0) ∧
    gpio_get_port_direction 7 ⟨0, 0, 0⟩ = (0, ⟨0, 0, 0⟩, 0) ∧
    (validate_port 0 = 0 ∧
      (gpio_get_port_value 0 (2 ^ 32 - 1) ⟨0, 0, 22⟩).1 = EINVAL ∧
      (gpio_get_port_direction 0 ⟨0, 0, 0⟩).1 = 0) :=
  c10_read_errors_folded 7 0 ⟨0, 0, 0⟩ (by decide)

end Libgreat
